import Mathlib

/-!
Shallow embedding of the "Calculate Coverage" notebook in this repository.

The notebook defines four pieces of analytical logic that the claims are
about: UTM zone selection and projection choice, coverage-grid sizing,
per-item overlap computation, and rasterize-and-accumulate.  Pure Python
functions become Lean functions; Python exceptions become an explicit
`Except` error type; Python `int()` truncation toward zero is `pyInt`.

The external geometry kernel (shapely and pyproj) is not code of this
repository; the parts the claims need are modelled, each such definition
carries a doc comment starting `Modelled from the spec:`.  Geometries are
modelled as finite unions of axis-aligned closed rational boxes, and the
pyproj coordinate transform is an explicit parameter `interp` interpreting
the projection string the notebook selects.
-/

/-- Planar or geographic point, written as rational (x, y) (that is, (lon, lat)). -/
abbrev Point := ℚ × ℚ

/-- Modelled from the spec: a shapely geometry, restricted to an axis-aligned
closed rational box.  The box with maxx < minx or maxy < miny is empty. -/
structure Box where
  minx : ℚ
  miny : ℚ
  maxx : ℚ
  maxy : ℚ
deriving DecidableEq

/-- Modelled from the spec: a shapely geometry as a finite union of boxes. -/
abbrev Geom := List Box

/-- Membership of a point in a box (closed, boundary-inclusive as the spec says). -/
def memBox (p : Point) (b : Box) : Bool :=
  decide (b.minx ≤ p.1) && decide (p.1 ≤ b.maxx) && decide (b.miny ≤ p.2) && decide (p.2 ≤ b.maxy)

/-- Membership of a point in a geometry. -/
def memGeom (g : Geom) (p : Point) : Bool :=
  g.any (fun b => memBox p b)

/-- Emptiness of a single box. -/
def boxEmpty (b : Box) : Bool :=
  decide (b.maxx < b.minx) || decide (b.maxy < b.miny)

/-- Modelled from the spec: shapely is_empty for the box-union model. -/
def isEmptyGeom (g : Geom) : Bool :=
  g.all boxEmpty

/-- Intersection of two boxes. -/
def interBox (a b : Box) : Box :=
  ⟨max a.minx b.minx, max a.miny b.miny, min a.maxx b.maxx, min a.maxy b.maxy⟩

/-- Modelled from the spec: shapely planar intersection (boundary-inclusive
polygon clipping), computed pairwise on the box-union model. -/
def interGeom (a b : Geom) : Geom :=
  a.flatMap (fun ba => b.map (fun bb => interBox ba bb))

/-- Modelled from the spec: shapely.ops.transform applied to one box of the
model, the envelope of the images of the two defining corners. -/
def transformBox (t : Point → Point) (b : Box) : Box :=
  let p := t (b.minx, b.miny)
  let q := t (b.maxx, b.maxy)
  ⟨min p.1 q.1, min p.2 q.2, max p.1 q.1, max p.2 q.2⟩

/-- Modelled from the spec: shapely.ops.transform, vertex-wise application of a
coordinate transform, producing a new geometry and never mutating the input. -/
def transformGeom (t : Point → Point) (g : Geom) : Geom :=
  g.map (transformBox t)

/-- Modelled from the spec: the shapely centroid of a rectangle, its center. -/
def boxCentroid (b : Box) : Point :=
  ((b.minx + b.maxx) / 2, (b.miny + b.maxy) / 2)

instance {ε α : Type} [DecidableEq ε] [DecidableEq α] : DecidableEq (Except ε α) := fun a b =>
  match a, b with
  | .error e, .error f =>
    if h : e = f then .isTrue (by rw [h]) else .isFalse (fun hh => h (Except.error.inj hh))
  | .ok x, .ok y =>
    if h : x = y then .isTrue (by rw [h]) else .isFalse (fun hh => h (Except.ok.inj hh))
  | .error _, .ok _ => .isFalse (fun hh => Except.noConfusion hh)
  | .ok _, .error _ => .isFalse (fun hh => Except.noConfusion hh)

/-- Python exceptions raised by the notebook code under consideration. -/
inductive PyError where
  | nameError
  | zeroDivisionError
  | domainErrorLatitude
  | domainErrorHeight
  | domainErrorWidth
deriving DecidableEq

/-- Hemisphere tag returned by zone selection. -/
inductive Hemisphere where
  | north
  | south
deriving DecidableEq

/-- Python int(): truncation toward zero. -/
def pyInt (q : ℚ) : ℤ :=
  if 0 ≤ q then q.floor else q.ceil

/-- Embeds _get_utm_zone from the notebook, taking the centroid coordinates
(the shapely centroid extraction is external; for a rectangle it is
boxCentroid).  Raises for latitude above 84 or below -80, otherwise returns
zone = int((lon + 180) / 6 + 1) and the hemisphere tag. -/
def utmZone (lon lat : ℚ) : Except PyError (ℤ × Hemisphere) :=
  if 84 < lat ∨ lat < -80 then .error .domainErrorLatitude
  else .ok (pyInt ((lon + 180) / 6 + 1), if 0 < lat then .north else .south)

/-- Embeds _get_utm_projection from the notebook: it ignores its geometry
argument and always returns the projection string "EPSG:32617". -/
def get_utm_projection (_g : Geom) : String :=
  "EPSG:32617"

/-- Embeds get_utm_projection_fcn: partial application of pyproj.transform to
the fixed WGS84 source and the projection chosen by get_utm_projection.  The
numeric behaviour of pyproj is external, so it enters as the parameter
`interp` mapping a projection string to a coordinate transform. -/
def get_utm_projection_fcn (interp : String → Point → Point) (g : Geom) : Point → Point :=
  interp (get_utm_projection g)

/-- Bounding box (minx, miny, maxx, maxy) in projected units, the order
shapely .bounds uses. -/
structure Bounds where
  minx : ℚ
  miny : ℚ
  maxx : ℚ
  maxy : ℚ
deriving DecidableEq

/-- Height maxy - miny of a bounding box. -/
def bHeight (b : Bounds) : ℚ := b.maxy - b.miny

/-- Width maxx - minx of a bounding box. -/
def bWidth (b : Bounds) : ℚ := b.maxx - b.minx

/-- Constant min_cell_size from get_coverage_dimensions (meters). -/
def min_cell_size : ℚ := 9

/-- Constant min_number_of_cells from get_coverage_dimensions. -/
def min_number_of_cells : ℚ := 3

/-- Constant max_number_of_cells from get_coverage_dimensions. -/
def max_number_of_cells : ℤ := 3000

/-- Constant min_dim = min_cell_size * min_number_of_cells. -/
def min_dim : ℚ := min_cell_size * min_number_of_cells

/-- Embeds the nested _dim helper: min(int(length / min_cell_size), max_number_of_cells),
as a natural number grid dimension. -/
def gridDim (len : ℚ) : ℕ :=
  (min (pyInt (len / min_cell_size)) max_number_of_cells).toNat

/-- Embeds get_coverage_dimensions: checks the AOI bounding box is at least
min_dim on each axis (height checked first, as in the source) and returns
[rows from height, cols from width]. -/
def get_coverage_dimensions (b : Bounds) : Except PyError (ℕ × ℕ) :=
  if bHeight b < min_dim then .error .domainErrorHeight
  else if bWidth b < min_dim then .error .domainErrorWidth
  else .ok (gridDim (bHeight b), gridDim (bWidth b))

/-- Union of two bounding boxes. -/
def unionBounds (a b : Bounds) : Bounds :=
  ⟨min a.minx b.minx, min a.miny b.miny, max a.maxx b.maxx, max a.maxy b.maxy⟩

/-- Bounds of one box. -/
def boxBounds (b : Box) : Bounds :=
  ⟨b.minx, b.miny, b.maxx, b.maxy⟩

/-- Modelled from the spec: shapely .bounds of a geometry, the envelope of its
boxes (degenerate zero bounds for the empty geometry). -/
def boundsOf : Geom → Bounds
  | [] => ⟨0, 0, 0, 0⟩
  | b :: rest => (rest.map boxBounds).foldl unionBounds (boxBounds b)

/-- Catalog item: the pipeline reads only its footprint geometry (the shape()
conversion from GeoJSON is external and enters the model as the geometry). -/
structure Item where
  geometry : Geom
deriving DecidableEq

/-- Embeds the nested _calculate_overlap: project the footprint with the AOI
transform and intersect the projected AOI with it. -/
def calculate_overlap (proj : Point → Point) (aoiUtm : Geom) (item : Item) : Geom :=
  interGeom aoiUtm (transformGeom proj item.geometry)

/-- Embeds get_overlap_shapes_utm: build the AOI projection once, project the
AOI, then yield one overlap per item, in order. -/
def get_overlap_shapes_utm (items : List Item) (aoi_shape : Geom)
    (interp : String → Point → Point) : List Geom :=
  let proj := get_utm_projection_fcn interp aoi_shape
  let aoiUtm := transformGeom proj aoi_shape
  items.map (calculate_overlap proj aoiUtm)

/-- Projected AOI used by the overlap calculator. -/
def projectedAoi (interp : String → Point → Point) (aoi : Geom) : Geom :=
  transformGeom (get_utm_projection_fcn interp aoi) aoi

/-- Projected footprint of one item under the AOI transform. -/
def projectedFootprint (interp : String → Point → Point) (aoi : Geom) (it : Item) : Geom :=
  transformGeom (get_utm_projection_fcn interp aoi) it.geometry

/-- Coverage grid: cell value at (row, col), zero outside the grid. -/
abbrev Grid := ℕ → ℕ → ℕ

/-- Embeds np.zeros(dimensions, dtype=np.uint16). -/
def zeroGrid : Grid := fun _ _ => 0

/-- Embeds the accumulation loop of calculate_coverage as the notebook has it:
empty overlaps are skipped; a non-empty overlap evaluates `sgeom.mapping`, and
`sgeom` is bound nowhere in the notebook (only `shape` is imported from
shapely.geometry), so Python raises NameError there. -/
def coverage_loop (cov : Grid) : List Geom → Except PyError Grid
  | [] => .ok cov
  | o :: rest =>
    if isEmptyGeom o then coverage_loop cov rest
    else .error .nameError

/-- Embeds calculate_coverage: the affine transform computes pixel width
(maxx - minx) / x_count and height (miny - maxy) / y_count before the loop,
raising ZeroDivisionError when a dimension is zero, then runs the loop over
the overlaps starting from the zero uint16 grid. -/
def calculate_coverage (overlaps : List Geom) (dims : ℕ × ℕ) (_bounds : Bounds) :
    Except PyError Grid :=
  if dims.2 = 0 ∨ dims.1 = 0 then .error .zeroDivisionError
  else coverage_loop zeroGrid overlaps

/-- Modelled from the spec: rasterio.features.rasterize of one overlap into a
0/1 grid, with the affine transform the source builds (pixel width
(maxx - minx) / x_count, pixel height (miny - maxy) / y_count, origin at
(minx, maxy)); a cell is 1 exactly when the geometry covers the cell center,
the deterministic representative-point rule the spec requires. -/
def rasterize_cell (o : Geom) (dims : ℕ × ℕ) (b : Bounds) (r c : ℕ) : ℕ :=
  let pw := (b.maxx - b.minx) / (dims.2 : ℚ)
  let ph := (b.miny - b.maxy) / (dims.1 : ℚ)
  if r < dims.1 ∧ c < dims.2 ∧
      memGeom o (b.minx + ((c : ℚ) + 1/2) * pw, b.maxy + ((r : ℚ) + 1/2) * ph) = true
  then 1 else 0

/-- Number of cell-center hits a list of overlaps burns into cell (r, c):
empty overlaps contribute nothing, a non-empty overlap contributes its
0/1 raster value at that cell. -/
def burnCount (dims : ℕ × ℕ) (b : Bounds) (r c : ℕ) : List Geom → ℕ
  | [] => 0
  | o :: rest =>
    (if isEmptyGeom o then 0 else rasterize_cell o dims b r c) + burnCount dims b r c rest

/-- Modelled from the spec: the accumulation loop of calculate_coverage with
the unbound name resolved as the notebook documentation intends
(shapely.geometry mapping of the overlap); `coverage += overlap_raster` on the
uint16 array adds cell-wise modulo 2 ^ 16. -/
def coverage_loop_model (dims : ℕ × ℕ) (b : Bounds) (cov : Grid) : List Geom → Grid
  | [] => cov
  | o :: rest =>
    if isEmptyGeom o then coverage_loop_model dims b cov rest
    else coverage_loop_model dims b
      (fun r c => (cov r c + rasterize_cell o dims b r c) % 65536) rest

/-- Modelled from the spec: calculate_coverage as the notebook documentation
describes it (rasterize each non-empty overlap to a 0/1 grid and accumulate
into the uint16 coverage array), keeping the ZeroDivisionError of the source
on a zero dimension. -/
def calculate_coverage_model (overlaps : List Geom) (dims : ℕ × ℕ) (b : Bounds) :
    Except PyError Grid :=
  if dims.2 = 0 ∨ dims.1 = 0 then .error .zeroDivisionError
  else .ok (coverage_loop_model dims b zeroGrid overlaps)

/-- Number of non-empty overlaps in a list. -/
def countNonEmpty (overlaps : List Geom) : ℕ :=
  overlaps.countP (fun o => !isEmptyGeom o)

/-- Externally observable calls of one notebook run. -/
inductive Event where
  | createSearchCall
  | searchCall
  | rasterizeCall
deriving DecidableEq

/-- Linear notebook execution: run the cells in order, collecting the events
of each completed cell and stopping at the first cell that raises. -/
def runCells : List (Except PyError (List Event)) → List Event × Option PyError
  | [] => ([], none)
  | c :: rest =>
    match c with
    | .error e => ([], some e)
    | .ok evs =>
      let tail := runCells rest
      (evs ++ tail.1, tail.2)

/-- Embeds the Build Request cell: it evaluates data_filter.geometry_filter
before the Session is opened, and the name data_filter is bound nowhere in
the notebook (the planet imports are only Auth, Session, DataClient and
OrdersClient), so Python raises NameError there and the create_search catalog
call the cell would otherwise make (Event.createSearchCall) never happens. -/
def build_request_cell : Except PyError (List Event) :=
  .error .nameError

/-- Embeds the projection cell: pure local computation, no external call. -/
def projection_cell : Except PyError (List Event) :=
  .ok []

/-- Embeds the grid-sizing cell: get_coverage_dimensions runs its domain
checks and may raise its DomainError. -/
def dimensions_cell (b : Bounds) : Except PyError (List Event) :=
  match get_coverage_dimensions b with
  | .error e => .error e
  | .ok _ => .ok []

/-- Embeds the item-search cell: the catalog search call. -/
def search_cell : Except PyError (List Event) :=
  .ok [Event.searchCall]

/-- Embeds the rasterize-and-accumulate display cell: the rasterization
attempt. -/
def rasterize_display_cell : Except PyError (List Event) :=
  .ok [Event.rasterizeCall]

/-- Embeds the top-level cell order of the notebook under linear execution:
Build Request (the create_search cell) first, then projection, then the
get_coverage_dimensions domain check, then the item search, then the
rasterize-and-accumulate display. -/
def notebook_run (aoiUtmBounds : Bounds) : List Event × Option PyError :=
  runCells [build_request_cell, projection_cell, dimensions_cell aoiUtmBounds,
    search_cell, rasterize_display_cell]

/-- The full local pipeline the notebook composes: choose the projection from
the AOI, project the AOI, size the grid from its bounds, compute the overlaps
and accumulate coverage. -/
def run_pipeline (interp : String → Point → Point) (aoi : Geom) (items : List Item) :
    Except PyError Grid :=
  let proj := get_utm_projection_fcn interp aoi
  let aoiUtm := transformGeom proj aoi
  match get_coverage_dimensions (boundsOf aoiUtm) with
  | .error e => .error e
  | .ok dims => calculate_coverage (get_overlap_shapes_utm items aoi interp) dims (boundsOf aoiUtm)

/-- Bridge from Python truncation to the mathematical floor on nonnegative input. -/
theorem pyInt_of_nonneg {q : ℚ} (h : 0 ≤ q) : pyInt q = ⌊q⌋ := by
  rw [pyInt, if_pos h, Rat.floor_def', Rat.floor_def]

/-- Evaluation of the _dim helper on nonnegative lengths. -/
theorem gridDim_eq {len : ℚ} (h : 0 ≤ len) : gridDim len = (min ⌊len / 9⌋ 3000).toNat := by
  have h9 : min_cell_size = 9 := rfl
  rw [gridDim, h9, pyInt_of_nonneg (div_nonneg h (by norm_num))]
  rfl

/-- Characterization of the failure of get_coverage_dimensions. -/
theorem get_coverage_dimensions_error_iff (b : Bounds) :
    (∃ e, get_coverage_dimensions b = .error e) ↔ (bHeight b < 27 ∨ bWidth b < 27) := by
  have hmd : min_dim = 27 := by norm_num [min_dim, min_cell_size, min_number_of_cells]
  rw [get_coverage_dimensions, hmd]
  split_ifs with h1 h2
  · exact ⟨fun _ => Or.inl h1, fun _ => ⟨_, rfl⟩⟩
  · exact ⟨fun _ => Or.inr h2, fun _ => ⟨_, rfl⟩⟩
  · constructor
    · rintro ⟨e, he⟩
      exact absurd he (by simp)
    · rintro (h | h)
      · exact absurd h h1
      · exact absurd h h2

/-- Evaluation of get_coverage_dimensions on a large-enough bounding box. -/
theorem get_coverage_dimensions_ok (b : Bounds) (hh : 27 ≤ bHeight b) (hw : 27 ≤ bWidth b) :
    get_coverage_dimensions b
      = .ok ((min ⌊bHeight b / 9⌋ 3000).toNat, (min ⌊bWidth b / 9⌋ 3000).toNat) := by
  have hmd : min_dim = 27 := by norm_num [min_dim, min_cell_size, min_number_of_cells]
  rw [get_coverage_dimensions, hmd, if_neg (by linarith), if_neg (by linarith),
    gridDim_eq (by linarith), gridDim_eq (by linarith)]


/-- C4: the Grid Sizer with defaults fails with a DomainError exactly when the
bounding box height or width is strictly below 27 meters; otherwise it returns
rows = min(floor(height/9), 3000) and cols = min(floor(width/9), 3000); a
27m x 27m box succeeds with both dimensions at least 3, a box one meter below
27m on either axis fails, and a 50km x 50km box yields (3000, 3000). -/
theorem get_coverage_dimensions_c4 (b : Bounds) :
    ((∃ e, get_coverage_dimensions b = .error e) ↔ (bHeight b < 27 ∨ bWidth b < 27))
  ∧ (27 ≤ bHeight b → 27 ≤ bWidth b →
      get_coverage_dimensions b
        = .ok ((min ⌊bHeight b / 9⌋ 3000).toNat, (min ⌊bWidth b / 9⌋ 3000).toNat))
  ∧ get_coverage_dimensions ⟨0, 0, 27, 27⟩ = .ok (3, 3)
  ∧ (∃ e, get_coverage_dimensions ⟨0, 0, 27, 26⟩ = .error e)
  ∧ (∃ e, get_coverage_dimensions ⟨0, 0, 26, 27⟩ = .error e)
  ∧ get_coverage_dimensions ⟨0, 0, 50000, 50000⟩ = .ok (3000, 3000) := by
  refine ⟨get_coverage_dimensions_error_iff b, get_coverage_dimensions_ok b, ?_, ?_, ?_, ?_⟩
  · rw [get_coverage_dimensions_ok ⟨0, 0, 27, 27⟩ (by norm_num [bHeight]) (by norm_num [bWidth])]
    norm_num [bHeight, bWidth]
    decide
  · exact (get_coverage_dimensions_error_iff _).mpr (by norm_num [bHeight])
  · exact (get_coverage_dimensions_error_iff _).mpr (by norm_num [bHeight, bWidth])
  · rw [get_coverage_dimensions_ok ⟨0, 0, 50000, 50000⟩ (by norm_num [bHeight])
      (by norm_num [bWidth])]
    norm_num [bHeight, bWidth]
    decide

/-- Witness for C4: a 45m x 36m box gives 4 rows and 5 columns. -/
theorem get_coverage_dimensions_c4_witness :
    get_coverage_dimensions ⟨0, 0, 45, 36⟩ = .ok (4, 5) := by
  rw [(get_coverage_dimensions_c4 ⟨0, 0, 45, 36⟩).2.1 (by norm_num [bHeight]) (by norm_num [bWidth])]
  norm_num [bHeight, bWidth]
  decide

/-- C5 counterexample: at centroid longitude 180 and latitude 84 the code
returns zone 61 with the north tag instead of failing, although 84 lies
outside the open interval (-80, 84) the claim uses, and 61 lies outside
[1, 60]. -/
theorem utm_zone_c5_counterexample :
    utmZone 180 84 = .ok (61, Hemisphere.north) ∧ ¬((84 : ℚ) < 84) ∧ ¬((61 : ℤ) ≤ 60) := by
  refine ⟨?_, by norm_num, by norm_num⟩
  rw [utmZone, if_neg (by norm_num), pyInt_of_nonneg (by norm_num), if_pos (by norm_num)]
  norm_num

/-- C5 amended: for every centroid with latitude in the closed interval
[-80, 84] and longitude in [-180, 180), zone selection returns a zone in
[1, 60] together with a hemisphere tag; for every latitude above 84 or below
-80 it fails with the DomainError. -/
theorem utm_zone_c5_amended :
    (∀ lon lat : ℚ, -80 ≤ lat → lat ≤ 84 → -180 ≤ lon → lon < 180 →
      ∃ z h, utmZone lon lat = .ok (z, h) ∧ 1 ≤ z ∧ z ≤ 60)
  ∧ (∀ lon lat : ℚ, (84 < lat ∨ lat < -80) →
      utmZone lon lat = .error .domainErrorLatitude) := by
  constructor
  · intro lon lat h1 h2 h3 h4
    have hcond : ¬(84 < lat ∨ lat < -80) := by
      push_neg
      exact ⟨h2, h1⟩
    have hq0 : (0 : ℚ) ≤ (lon + 180) / 6 + 1 := by
      have : (0 : ℚ) ≤ (lon + 180) / 6 := div_nonneg (by linarith) (by norm_num)
      linarith
    refine ⟨pyInt ((lon + 180) / 6 + 1), if 0 < lat then .north else .south, ?_, ?_, ?_⟩
    · rw [utmZone, if_neg hcond]
    · rw [pyInt_of_nonneg hq0]
      refine Int.le_floor.mpr ?_
      push_cast
      have : (0 : ℚ) ≤ (lon + 180) / 6 := div_nonneg (by linarith) (by norm_num)
      linarith
    · rw [pyInt_of_nonneg hq0]
      have hlt : (lon + 180) / 6 + 1 < 61 := by
        have : (lon + 180) / 6 < 60 := by
          rw [div_lt_iff₀ (by norm_num : (0 : ℚ) < 6)]
          linarith
        linarith
      have := Int.floor_lt.mpr (by push_cast; linarith : ((lon + 180) / 6 + 1 : ℚ) < (61 : ℤ))
      omega
  · intro lon lat h
    rw [utmZone, if_pos h]

/-- Witness for C5: at centroid (0, 45) zone selection returns zone 31 north,
and at latitude 100 it fails with the DomainError. -/
theorem utm_zone_c5_witness :
    (∃ z h, utmZone 0 45 = .ok (z, h) ∧ 1 ≤ z ∧ z ≤ 60)
  ∧ utmZone 0 100 = .error .domainErrorLatitude :=
  ⟨utm_zone_c5_amended.1 0 45 (by norm_num) (by norm_num) (by norm_num) (by norm_num),
   utm_zone_c5_amended.2 0 100 (Or.inl (by norm_num))⟩

/-- The accumulation loop only returns its starting grid. -/
theorem coverage_loop_ok {cov g : Grid} : ∀ {os : List Geom},
    coverage_loop cov os = .ok g → g = cov
  | [], h => by
    rw [coverage_loop] at h
    exact (Except.ok.inj h).symm
  | o :: rest, h => by
    by_cases he : isEmptyGeom o = true
    · rw [coverage_loop, if_pos he] at h
      exact coverage_loop_ok h
    · rw [coverage_loop, if_neg he] at h
      exact absurd h (by simp)

/-- The accumulation loop passes through a list of empty overlaps. -/
theorem coverage_loop_all_empty {cov : Grid} : ∀ {os : List Geom},
    (∀ o ∈ os, isEmptyGeom o = true) → coverage_loop cov os = .ok cov
  | [], _ => rfl
  | o :: rest, h => by
    rw [coverage_loop, if_pos (h o (by simp))]
    exact coverage_loop_all_empty fun o ho => h o (by simp [ho])

/-- The accumulation loop hits the unbound name sgeom, hence NameError, as
soon as the list holds a non-empty overlap. -/
theorem coverage_loop_nonempty {cov : Grid} : ∀ {os : List Geom},
    (∃ o ∈ os, isEmptyGeom o = false) → coverage_loop cov os = .error .nameError
  | [], h => absurd h (by simp)
  | o :: rest, h => by
    rw [coverage_loop]
    rcases h with ⟨o₂, ho₂, hne⟩
    rcases List.mem_cons.mp ho₂ with rfl | hmem
    · rw [if_neg (by simp [hne])]
    · by_cases he : isEmptyGeom o = true
      · rw [if_pos he]
        exact coverage_loop_nonempty ⟨o₂, hmem, hne⟩
      · rw [if_neg he]

/-- C1: evaluation of calculate_coverage as the notebook has it.  Accumulating
the empty overlap list does return the all-zero grid, but accumulating two
copies of an overlap identical to the AOI rectangle (with the AOI bounding
box and a 3 x 3 grid) raises NameError, because the name sgeom is bound
nowhere in the notebook, instead of returning the grid with every cell 2. -/
theorem calculate_coverage_c1_failing :
    calculate_coverage [] (3, 3) ⟨0, 0, 27, 27⟩ = .ok zeroGrid
  ∧ calculate_coverage (List.replicate 2 [⟨0, 0, 27, 27⟩]) (3, 3) ⟨0, 0, 27, 27⟩
      = .error .nameError :=
  ⟨rfl, rfl⟩

/-- C2: for positive grid dimensions, calculate_coverage raises NameError
exactly when some overlap in the list is non-empty, and returns normally
(necessarily the all-zero grid) exactly when every overlap is empty. -/
theorem calculate_coverage_c2 (overlaps : List Geom) (dims : ℕ × ℕ) (bounds : Bounds)
    (hy : 0 < dims.1) (hx : 0 < dims.2) :
    (calculate_coverage overlaps dims bounds = .error .nameError
      ↔ ∃ o ∈ overlaps, isEmptyGeom o = false)
  ∧ (calculate_coverage overlaps dims bounds = .ok zeroGrid
      ↔ ∀ o ∈ overlaps, isEmptyGeom o = true) := by
  have hguard : ¬(dims.2 = 0 ∨ dims.1 = 0) := by omega
  rw [calculate_coverage, if_neg hguard]
  refine ⟨⟨fun h => ?_, fun h => coverage_loop_nonempty h⟩,
    ⟨fun h o ho => ?_, fun h => coverage_loop_all_empty h⟩⟩
  · by_contra hne
    push_neg at hne
    rw [coverage_loop_all_empty (fun o ho => by simpa using hne o ho)] at h
    exact absurd h (by simp)
  · by_contra hne
    rw [coverage_loop_nonempty ⟨o, ho, by simpa using hne⟩] at h
    exact absurd h (by simp)

/-- Witness for C2: a singleton non-empty overlap raises NameError, the empty
overlap list returns the all-zero grid. -/
theorem calculate_coverage_c2_witness :
    calculate_coverage [[⟨0, 0, 1, 1⟩]] (3, 3) ⟨0, 0, 27, 27⟩ = .error .nameError
  ∧ calculate_coverage [] (3, 3) ⟨0, 0, 27, 27⟩ = .ok zeroGrid :=
  ⟨(calculate_coverage_c2 [[⟨0, 0, 1, 1⟩]] (3, 3) ⟨0, 0, 27, 27⟩ (by decide) (by decide)).1.mpr
      ⟨[⟨0, 0, 1, 1⟩], by simp, by decide⟩,
   (calculate_coverage_c2 [] (3, 3) ⟨0, 0, 27, 27⟩ (by decide) (by decide)).2.mpr (by simp)⟩

/-- C3: the notebook never selects the projection from the centroid.  The two
rectangles below have centroids in UTM zones 17 and 31 (utmZone tells them
apart), yet get_utm_projection returns the same hardcoded string EPSG:32617
for both, and get_utm_projection_fcn therefore returns the same coordinate
transform for every pair of geometries. -/
theorem utm_projection_c3_constant :
    utmZone (boxCentroid ⟨-79, 35, -78, 36⟩).1 (boxCentroid ⟨-79, 35, -78, 36⟩).2
      ≠ utmZone (boxCentroid ⟨2, 47, 4, 49⟩).1 (boxCentroid ⟨2, 47, 4, 49⟩).2
  ∧ get_utm_projection [⟨-79, 35, -78, 36⟩] = get_utm_projection [⟨2, 47, 4, 49⟩]
  ∧ ∀ (interp : String → Point → Point) (g1 g2 : Geom),
      get_utm_projection_fcn interp g1 = get_utm_projection_fcn interp g2 := by
  refine ⟨?_, rfl, fun interp g1 g2 => rfl⟩
  have h1 : utmZone (boxCentroid ⟨-79, 35, -78, 36⟩).1 (boxCentroid ⟨-79, 35, -78, 36⟩).2
      = .ok (17, .north) := by
    rw [boxCentroid, utmZone]
    rw [if_neg (by norm_num), pyInt_of_nonneg (by norm_num), if_pos (by norm_num)]
    norm_num
  have h2 : utmZone (boxCentroid ⟨2, 47, 4, 49⟩).1 (boxCentroid ⟨2, 47, 4, 49⟩).2
      = .ok (31, .north) := by
    rw [boxCentroid, utmZone]
    rw [if_neg (by norm_num), pyInt_of_nonneg (by norm_num), if_pos (by norm_num)]
    norm_num
  rw [h1, h2]
  simp

/-- Membership in a box intersection is membership in both boxes. -/
theorem memBox_inter {p : Point} {a b : Box} :
    memBox p (interBox a b) = true ↔ (memBox p a = true ∧ memBox p b = true) := by
  simp only [memBox, interBox, Bool.and_eq_true, decide_eq_true_eq, max_le_iff, le_min_iff]
  tauto

/-- Membership in a geometry intersection is membership in both geometries. -/
theorem memGeom_inter {g h : Geom} {p : Point} :
    memGeom (interGeom g h) p = true ↔ (memGeom g p = true ∧ memGeom h p = true) := by
  simp only [memGeom, interGeom, List.any_eq_true]
  constructor
  · rintro ⟨bx, hbx, hmem⟩
    rcases List.mem_flatMap.mp hbx with ⟨ba, hba, hbmap⟩
    rcases List.mem_map.mp hbmap with ⟨bb, hbb, rfl⟩
    rcases memBox_inter.mp hmem with ⟨h1, h2⟩
    exact ⟨⟨ba, hba, h1⟩, ⟨bb, hbb, h2⟩⟩
  · rintro ⟨⟨ba, hba, h1⟩, ⟨bb, hbb, h2⟩⟩
    exact ⟨interBox ba bb,
      List.mem_flatMap.mpr ⟨ba, hba, List.mem_map.mpr ⟨bb, hbb, rfl⟩⟩,
      memBox_inter.mpr ⟨h1, h2⟩⟩

/-- A non-empty box holds its lower-left corner. -/
theorem memBox_corner {b : Box} (h : boxEmpty b = false) : memBox (b.minx, b.miny) b = true := by
  simp only [boxEmpty, Bool.or_eq_false_iff, decide_eq_false_iff_not, not_lt] at h
  simp only [memBox, Bool.and_eq_true, decide_eq_true_eq]
  exact ⟨⟨⟨le_refl _, h.1⟩, le_refl _⟩, h.2⟩

/-- A non-empty geometry holds some point. -/
theorem geom_nonempty_has_point {g : Geom} (h : isEmptyGeom g = false) :
    ∃ p, memGeom g p = true := by
  simp only [isEmptyGeom, List.all_eq_false] at h
  rcases h with ⟨b, hb, hbe⟩
  refine ⟨(b.minx, b.miny), ?_⟩
  simp only [memGeom, List.any_eq_true]
  exact ⟨b, hb, memBox_corner (by simpa using hbe)⟩

/-- Self-intersection of a geometry covers the same points. -/
theorem memGeom_inter_self (a : Geom) (p : Point) :
    memGeom (interGeom a a) p = memGeom a p := by
  cases hA : memGeom a p with
  | false =>
    apply Bool.eq_false_iff.mpr
    intro hc
    have := (memGeom_inter.mp hc).1
    rw [hA] at this
    exact Bool.false_ne_true this
  | true => exact memGeom_inter.mpr ⟨hA, hA⟩

/-- C6: the Overlap Calculator yields one output per input item, in input
order, the i-th output being the planar intersection of the projected AOI
with the i-th projected footprint; a footprint equal to the AOI yields an
overlap covering exactly the points of the projected AOI (hence of equal
area), and a footprint whose projection is disjoint from the projected AOI
yields an empty overlap. -/
theorem get_overlap_shapes_c6 (interp : String → Point → Point) (aoi : Geom)
    (items : List Item) (i : ℕ) (it : Item) (hit : items[i]? = some it) :
    (get_overlap_shapes_utm items aoi interp).length = items.length
  ∧ (get_overlap_shapes_utm items aoi interp)[i]?
      = some (interGeom (projectedAoi interp aoi) (projectedFootprint interp aoi it))
  ∧ (it.geometry = aoi → ∀ p : Point,
      memGeom (interGeom (projectedAoi interp aoi) (projectedFootprint interp aoi it)) p
        = memGeom (projectedAoi interp aoi) p)
  ∧ ((∀ p : Point, ¬(memGeom (projectedAoi interp aoi) p = true
        ∧ memGeom (projectedFootprint interp aoi it) p = true)) →
      isEmptyGeom (interGeom (projectedAoi interp aoi) (projectedFootprint interp aoi it))
        = true) := by
  refine ⟨by simp [get_overlap_shapes_utm], ?_, ?_, ?_⟩
  · rw [get_overlap_shapes_utm]
    rw [List.getElem?_map, hit]
    rfl
  · intro hgeo p
    have hfp : projectedFootprint interp aoi it = projectedAoi interp aoi := by
      rw [projectedFootprint, projectedAoi, hgeo]
    rw [hfp]
    exact memGeom_inter_self _ p
  · intro hdis
    by_contra hne
    rcases geom_nonempty_has_point (Bool.eq_false_iff.mpr hne) with ⟨p, hp⟩
    exact hdis p (memGeom_inter.mp hp)

/-- Witness for C6 at a concrete input: one item whose footprint equals the
AOI rectangle, with the identity as the external transform interpretation. -/
theorem get_overlap_shapes_c6_witness :
    (get_overlap_shapes_utm [⟨[⟨0, 0, 10, 10⟩]⟩] [⟨0, 0, 10, 10⟩] (fun _ p => p)).length
        = ([(⟨[⟨0, 0, 10, 10⟩]⟩ : Item)]).length
  ∧ (get_overlap_shapes_utm [⟨[⟨0, 0, 10, 10⟩]⟩] [⟨0, 0, 10, 10⟩] (fun _ p => p))[0]?
      = some (interGeom (projectedAoi (fun _ p => p) [⟨0, 0, 10, 10⟩])
          (projectedFootprint (fun _ p => p) [⟨0, 0, 10, 10⟩] ⟨[⟨0, 0, 10, 10⟩]⟩))
  ∧ ((⟨[⟨0, 0, 10, 10⟩]⟩ : Item).geometry = [⟨0, 0, 10, 10⟩] → ∀ p : Point,
      memGeom (interGeom (projectedAoi (fun _ p => p) [⟨0, 0, 10, 10⟩])
          (projectedFootprint (fun _ p => p) [⟨0, 0, 10, 10⟩] ⟨[⟨0, 0, 10, 10⟩]⟩)) p
        = memGeom (projectedAoi (fun _ p => p) [⟨0, 0, 10, 10⟩]) p)
  ∧ ((∀ p : Point, ¬(memGeom (projectedAoi (fun _ p => p) [⟨0, 0, 10, 10⟩]) p = true
        ∧ memGeom (projectedFootprint (fun _ p => p) [⟨0, 0, 10, 10⟩] ⟨[⟨0, 0, 10, 10⟩]⟩) p
            = true)) →
      isEmptyGeom (interGeom (projectedAoi (fun _ p => p) [⟨0, 0, 10, 10⟩])
          (projectedFootprint (fun _ p => p) [⟨0, 0, 10, 10⟩] ⟨[⟨0, 0, 10, 10⟩]⟩)) = true) :=
  get_overlap_shapes_c6 (fun _ p => p) [⟨0, 0, 10, 10⟩] [⟨[⟨0, 0, 10, 10⟩]⟩] 0
    ⟨[⟨0, 0, 10, 10⟩]⟩ rfl

/-- One rasterized overlap contributes 0 or 1 to a cell. -/
theorem rasterize_cell_le_one (o : Geom) (dims : ℕ × ℕ) (b : Bounds) (r c : ℕ) :
    rasterize_cell o dims b r c ≤ 1 := by
  rw [rasterize_cell]
  split_ifs <;> norm_num

/-- Cell value of the modelled accumulation loop: starting below the uint16
modulus, each cell ends at (start + burned hits) modulo 2 ^ 16. -/
theorem coverage_loop_model_cell (dims : ℕ × ℕ) (b : Bounds) (r c : ℕ) (os : List Geom) :
    ∀ cov : Grid, cov r c < 65536 →
      coverage_loop_model dims b cov os r c = (cov r c + burnCount dims b r c os) % 65536 := by
  induction os with
  | nil =>
    intro cov h
    rw [coverage_loop_model, burnCount, Nat.add_zero, Nat.mod_eq_of_lt h]
  | cons o rest ih =>
    intro cov h
    by_cases he : isEmptyGeom o = true
    · rw [coverage_loop_model, if_pos he, burnCount, if_pos he, ih cov h, Nat.zero_add]
    · have hlt : ((cov r c + rasterize_cell o dims b r c) % 65536) < 65536 :=
        Nat.mod_lt _ (by norm_num)
      rw [coverage_loop_model, if_neg he, burnCount, if_neg he,
        ih (fun r₂ c₂ => (cov r₂ c₂ + rasterize_cell o dims b r₂ c₂) % 65536) hlt,
        Nat.mod_add_mod, Nat.add_assoc]

/-- The burned hits at a cell never exceed the number of non-empty overlaps. -/
theorem burnCount_le (dims : ℕ × ℕ) (b : Bounds) (r c : ℕ) :
    ∀ os : List Geom, burnCount dims b r c os ≤ countNonEmpty os := by
  intro os
  induction os with
  | nil => simp [burnCount, countNonEmpty]
  | cons o rest ih =>
    by_cases he : isEmptyGeom o = true
    · have hc : countNonEmpty (o :: rest) = countNonEmpty rest := by
        simp [countNonEmpty, List.countP_cons, he]
      rw [burnCount, if_pos he, hc, Nat.zero_add]
      exact ih
    · have hc : countNonEmpty (o :: rest) = countNonEmpty rest + 1 := by
        simp [countNonEmpty, List.countP_cons, he]
      rw [burnCount, if_neg he, hc]
      have := rasterize_cell_le_one o dims b r c
      omega

/-- C7: whenever a CoverageGrid results, each cell lies between 0 and the
number of non-empty overlaps in the input list, both for calculate_coverage
as the notebook has it (which returns a grid only when every overlap is
empty) and for the modelled rasterize-and-accumulate loop the notebook
documentation describes, where each non-empty overlap contributes at most 1
per cell. -/
theorem coverage_invariant_c7 (overlaps : List Geom) (dims : ℕ × ℕ) (b : Bounds) (g : Grid) :
    (calculate_coverage overlaps dims b = .ok g → ∀ r c, g r c ≤ countNonEmpty overlaps)
  ∧ (calculate_coverage_model overlaps dims b = .ok g →
      ∀ r c, g r c ≤ countNonEmpty overlaps) := by
  constructor
  · intro h r c
    rw [calculate_coverage] at h
    by_cases hg : dims.2 = 0 ∨ dims.1 = 0
    · rw [if_pos hg] at h
      exact absurd h (by simp)
    · rw [if_neg hg] at h
      rw [coverage_loop_ok h]
      exact Nat.zero_le _
  · intro h r c
    rw [calculate_coverage_model] at h
    by_cases hg : dims.2 = 0 ∨ dims.1 = 0
    · rw [if_pos hg] at h
      exact absurd h (by simp)
    · rw [if_neg hg] at h
      rw [← Except.ok.inj h,
        coverage_loop_model_cell dims b r c overlaps zeroGrid (by simp [zeroGrid])]
      exact le_trans (Nat.mod_le _ _) (by simpa [zeroGrid] using burnCount_le dims b r c overlaps)

/-- Witness for C7: concrete instances of both halves. -/
theorem coverage_invariant_c7_witness :
    zeroGrid 0 0 ≤ countNonEmpty []
  ∧ coverage_loop_model (2, 2) ⟨0, 0, 10, 10⟩ zeroGrid [[⟨0, 0, 10, 10⟩]] 0 0
      ≤ countNonEmpty [[⟨0, 0, 10, 10⟩]] :=
  ⟨(coverage_invariant_c7 [] (2, 2) ⟨0, 0, 10, 10⟩ zeroGrid).1 rfl 0 0,
   (coverage_invariant_c7 [[⟨0, 0, 10, 10⟩]] (2, 2) ⟨0, 0, 10, 10⟩
      (coverage_loop_model (2, 2) ⟨0, 0, 10, 10⟩ zeroGrid [[⟨0, 0, 10, 10⟩]])).2 rfl 0 0⟩

/-- C10: in the modelled accumulation the coverage array is uint16, so each
cell equals the number of non-empty overlaps burned into it modulo 2 ^ 16,
and with at most 500 overlaps (the catalog search limit the notebook uses)
no cell can wrap: the count is exact and at most 500. -/
theorem coverage_uint16_c10 (overlaps : List Geom) (dims : ℕ × ℕ) (b : Bounds) (g : Grid)
    (h : calculate_coverage_model overlaps dims b = .ok g) :
    ∀ r c, g r c = burnCount dims b r c overlaps % 65536
      ∧ (overlaps.length ≤ 500 →
          g r c = burnCount dims b r c overlaps ∧ g r c ≤ 500) := by
  intro r c
  rw [calculate_coverage_model] at h
  by_cases hg : dims.2 = 0 ∨ dims.1 = 0
  · rw [if_pos hg] at h
    exact absurd h (by simp)
  · rw [if_neg hg] at h
    have hcell : g r c = burnCount dims b r c overlaps % 65536 := by
      rw [← Except.ok.inj h,
        coverage_loop_model_cell dims b r c overlaps zeroGrid (by simp [zeroGrid])]
      simp [zeroGrid]
    refine ⟨hcell, fun h500 => ?_⟩
    have hb : burnCount dims b r c overlaps ≤ 500 := by
      have h1 := burnCount_le dims b r c overlaps
      have h2 : countNonEmpty overlaps ≤ overlaps.length := List.countP_le_length _
      omega
    have : burnCount dims b r c overlaps % 65536 = burnCount dims b r c overlaps :=
      Nat.mod_eq_of_lt (by omega)
    omega

/-- Witness for C10 at a concrete input: one overlap, a 2 x 2 grid. -/
theorem coverage_uint16_c10_witness :
    coverage_loop_model (2, 2) ⟨0, 0, 10, 10⟩ zeroGrid [[⟨0, 0, 10, 10⟩]] 0 0
        = burnCount (2, 2) ⟨0, 0, 10, 10⟩ 0 0 [[⟨0, 0, 10, 10⟩]] % 65536
  ∧ (([[(⟨0, 0, 10, 10⟩ : Box)]] : List Geom).length ≤ 500 →
      coverage_loop_model (2, 2) ⟨0, 0, 10, 10⟩ zeroGrid [[⟨0, 0, 10, 10⟩]] 0 0
          = burnCount (2, 2) ⟨0, 0, 10, 10⟩ 0 0 [[⟨0, 0, 10, 10⟩]]
        ∧ coverage_loop_model (2, 2) ⟨0, 0, 10, 10⟩ zeroGrid [[⟨0, 0, 10, 10⟩]] 0 0 ≤ 500) :=
  coverage_uint16_c10 [[⟨0, 0, 10, 10⟩]] (2, 2) ⟨0, 0, 10, 10⟩
    (coverage_loop_model (2, 2) ⟨0, 0, 10, 10⟩ zeroGrid [[⟨0, 0, 10, 10⟩]]) rfl 0 0

/-- C8 counterexample: the AOI bounding box 10m x 10m is malformed (its
domain check would fail), yet the run does not abort with that DomainError:
linear execution dies with NameError at the unbound name data_filter in the
Build Request cell, so the domain check never runs, and the abort error is
not a DomainError as the claim states. -/
theorem notebook_order_c8_counterexample :
    (∃ e, get_coverage_dimensions ⟨0, 0, 10, 10⟩ = .error e)
  ∧ notebook_run ⟨0, 0, 10, 10⟩ = ([], some PyError.nameError)
  ∧ (notebook_run ⟨0, 0, 10, 10⟩).2 ≠ some PyError.domainErrorHeight
  ∧ (notebook_run ⟨0, 0, 10, 10⟩).2 ≠ some PyError.domainErrorWidth := by
  refine ⟨⟨.domainErrorHeight, ?_⟩, rfl, by decide, by decide⟩
  rw [get_coverage_dimensions,
    if_pos (by norm_num [bHeight, min_dim, min_cell_size, min_number_of_cells])]

/-- C8 amended: under linear execution every notebook run aborts with the
NameError from the unbound name data_filter in the Build Request cell, before
the create_search catalog call, before the item-search catalog call, before
the domain checks (so the DomainError is never raised) and before any
rasterization; in particular no catalog call occurs on a malformed AOI,
though not because the domain checks pass first. -/
theorem notebook_order_c8_amended (b : Bounds) :
    notebook_run b = ([], some PyError.nameError)
  ∧ Event.createSearchCall ∉ (notebook_run b).1
  ∧ Event.searchCall ∉ (notebook_run b).1
  ∧ Event.rasterizeCall ∉ (notebook_run b).1 := by
  have h1 : notebook_run b = ([], some PyError.nameError) := rfl
  refine ⟨h1, ?_, ?_, ?_⟩ <;> rw [h1] <;> simp

/-- C9: the embedded pipeline (projection choice, AOI projection, grid
sizing, overlap computation, rasterize-and-accumulate) is a pure function,
so two runs on equal AOIs and equal item lists produce equal results. -/
theorem pipeline_deterministic_c9 (interp : String → Point → Point)
    (aoi1 aoi2 : Geom) (items1 items2 : List Item)
    (ha : aoi1 = aoi2) (hl : items1 = items2) :
    run_pipeline interp aoi1 items1 = run_pipeline interp aoi2 items2 := by
  rw [ha, hl]

/-- Witness for C9 at a concrete AOI and item list. -/
theorem pipeline_deterministic_c9_witness :
    run_pipeline (fun _ p => p) [⟨0, 0, 100, 100⟩] [⟨[⟨0, 0, 100, 100⟩]⟩]
      = run_pipeline (fun _ p => p) [⟨0, 0, 100, 100⟩] [⟨[⟨0, 0, 100, 100⟩]⟩] :=
  pipeline_deterministic_c9 (fun _ p => p) [⟨0, 0, 100, 100⟩] [⟨0, 0, 100, 100⟩]
    [⟨[⟨0, 0, 100, 100⟩]⟩] [⟨[⟨0, 0, 100, 100⟩]⟩] rfl rfl
